import Mathlib

/-!
Verification development for the portfolio page script.

The source is a single JavaScript file with two stateful classes:
`Background3D` (an animated three.js scene: particle field, four floating
solids, camera steered by the pointer, an animation-frame loop, resize and
dispose handlers) and `ContactForm` (field validation and a guarded submit
handler).  The definitions below are a shallow embedding of that code:
pure functions become Lean functions, the mutable objects become explicit
state records, `Math.random()` becomes an explicit stream `rng : Nat → ℝ`
of values in `[0,1)` consumed in call order, and the DOM / three.js
collaborators are modelled by the scalar state they carry (attachment
flags, dispose counters, listener registries).
-/

namespace Portfolio

/-! ## Strings: JS whitespace, trim, and the e-mail regex -/

/-- The set of code points matched by the JavaScript regex class `\s`
and stripped by `String.prototype.trim`. -/
def isJsSpace (c : Char) : Bool :=
  [9, 10, 11, 12, 13, 32, 160, 0x1680, 0x2000, 0x2001, 0x2002, 0x2003,
   0x2004, 0x2005, 0x2006, 0x2007, 0x2008, 0x2009, 0x200A, 0x2028, 0x2029,
   0x202F, 0x205F, 0x3000, 0xFEFF].contains c.toNat

/-- Model of `value.trim()`: strip JS whitespace from both ends. -/
def jsTrim (l : List Char) : List Char :=
  ((l.dropWhile isJsSpace).reverse.dropWhile isJsSpace).reverse

/-- A character admitted by the regex class `[^\s@]`. -/
def emailChar (c : Char) : Bool := !(isJsSpace c) && !(c == '@')

/-- The test `/^[^\s@]+@[^\s@]+\.[^\s@]+$/.test value` from
`ContactForm.validateField`.  The local part `[^\s@]+` cannot contain `@`,
so the literal `@` of the pattern matches the first `@` of the string;
the remainder must be free of whitespace and `@` and contain a dot that
is neither its first nor its last character. -/
def emailOk (l : List Char) : Bool :=
  let a := l.takeWhile (fun c => !(c == '@'))
  match l.dropWhile (fun c => !(c == '@')) with
  | [] => false
  | _ :: b =>
    !(a.isEmpty) && (a.all emailChar && (b.all emailChar
      && ((b.drop 1).dropLast.contains '.')))

/-- The `local@domain.tld` shape in the words of the specification:
a nonempty local part without whitespace or `@`, then `@`, then a
nonempty domain, a dot, and a nonempty top-level part, the latter two
likewise free of whitespace and `@`. -/
def emailShape (l : List Char) : Prop :=
  ∃ A M R : List Char,
    l = A ++ '@' :: (M ++ '.' :: R) ∧
    A ≠ [] ∧ M ≠ [] ∧ R ≠ [] ∧
    (∀ c ∈ A, emailChar c = true) ∧
    (∀ c ∈ M, emailChar c = true) ∧
    (∀ c ∈ R, emailChar c = true)

/-! ## ContactForm.validateField -/

inductive FieldKind
  | name
  | email
  | message
deriving DecidableEq

/-- Result of `validateField`: the returned boolean together with the
error message written to the field's error element. -/
structure FieldStatus where
  isValid : Bool
  errorMessage : String
deriving DecidableEq

def nameError : String := "Name must be at least 2 characters long"

def emailError : String := "Please enter a valid email address"

def messageError : String := "Message must be at least 10 characters long"

/-- Model of `ContactForm.validateField`: trims the field value, then branches on
the field name; `name` requires length ≥ 2, `email` must pass the regex,
`message` requires length ≥ 10. -/
def validateField (fieldName : FieldKind) (rawValue : List Char) : FieldStatus :=
  let value := jsTrim rawValue
  match fieldName with
  | .name => if value.length < 2 then ⟨false, nameError⟩ else ⟨true, ""⟩
  | .email => if emailOk value then ⟨true, ""⟩ else ⟨false, emailError⟩
  | .message => if value.length < 10 then ⟨false, messageError⟩ else ⟨true, ""⟩

/-! ## Camera steering (Background3D.animate, lines 305-306) -/

/-- One tick of the camera lerp on one coordinate:
`camera.position.x += (mouse.x * 2 - camera.position.x) * mouseEffect`. -/
def cameraLerp (mouseEffect target x : ℝ) : ℝ :=
  x + (target * 2 - x) * mouseEffect

/-- Camera coordinate after `n` ticks with a constant pointer target. -/
def camSeq (mouseEffect target x0 : ℝ) (n : ℕ) : ℝ :=
  (cameraLerp mouseEffect target)^[n] x0

/-! ## Floating solids: geometry of one tick -/

/-- Squared-sum Euclidean length of a 3-vector, as `THREE.Vector3.length`. -/
noncomputable def len3 (v : ℝ × ℝ × ℝ) : ℝ :=
  Real.sqrt (v.1 ^ 2 + v.2.1 ^ 2 + v.2.2 ^ 2)

/-- Model of `THREE.Vector3.normalize`, which is `divideScalar(this.length() || 1)` — a
zero-length vector is divided by 1 and therefore left unchanged. -/
noncomputable def normalize3 (v : ℝ × ℝ × ℝ) : ℝ × ℝ × ℝ :=
  if len3 v = 0 then v else (v.1 / len3 v, v.2.1 / len3 v, v.2.2 / len3 v)

/-! ## Scene data model -/

/-- The tunables fixed in the `Background3D` constructor. -/
structure SceneConfig where
  particleCount : ℕ
  particleSize : ℝ
  particleColor : ℕ
  particleOpacity : ℝ
  cameraFOV : ℝ
  cameraDistance : ℝ
  rotationSpeed : ℝ
  floatingSpeed : ℝ
  mouseEffect : ℝ

/-- The literal config object of the source. -/
def defaultConfig : SceneConfig :=
  { particleCount := 2000
    particleSize := 0.02
    particleColor := 0x667eea
    particleOpacity := 0.8
    cameraFOV := 60
    cameraDistance := 15
    rotationSpeed := 0.0005
    floatingSpeed := 0.002
    mouseEffect := 0.02 }

/-- The particle system: the `position` and `scale` buffer attributes and
the `time` uniform of the shader material. -/
structure ParticleField where
  positions : List (ℝ × ℝ × ℝ)
  scales : List ℝ
  timeUniform : ℝ

/-- Model of `Background3D.createParticles`: the loop draws, for each particle,
three position samples then one scale sample from `Math.random()`
(modelled as the stream `rng` consumed in call order), with
`positions[k] = (Math.random() - 0.5) * 50` and `scales[i] = Math.random()`. -/
def createParticles (particleCount : ℕ) (rng : ℕ → ℝ) : ParticleField :=
  { positions := (List.range particleCount).map fun i =>
      ((rng (4 * i) - 0.5) * 50, (rng (4 * i + 1) - 0.5) * 50,
        (rng (4 * i + 2) - 0.5) * 50)
    scales := (List.range particleCount).map fun i => rng (4 * i + 3)
    timeUniform := 0 }

inductive GeometryKind
  | torus
  | octahedron
  | tetrahedron
  | icosahedron
deriving DecidableEq

/-- The four base geometries built in `createFloatingGeometries`. -/
def geometryKinds : List GeometryKind :=
  [.torus, .octahedron, .tetrahedron, .icosahedron]

/-- One mesh plus its `userData` animation parameters. `angle` is the
accumulated rotation about `rotationAxis` (every `rotateOnAxis` call uses
the same object-space axis, so orientations compose by adding angles). -/
structure FloatingSolid where
  kind : GeometryKind
  position : ℝ × ℝ × ℝ
  initialY : ℝ
  speed : ℝ
  offset : ℝ
  rotationAxis : ℝ × ℝ × ℝ
  angle : ℝ

/-- Creation of the `i`-th mesh in `createFloatingGeometries`: the loop
body draws three position samples, one speed sample, one phase sample and
three axis samples per mesh, in that order. -/
noncomputable def mkSolid (rng : ℕ → ℝ) (i : ℕ) (kind : GeometryKind) : FloatingSolid :=
  let py := (rng (8 * i + 1) - 0.5) * 20
  { kind := kind
    position := ((rng (8 * i) - 0.5) * 20, py, (rng (8 * i + 2) - 0.5) * 20)
    initialY := py
    speed := 0.0005 + rng (8 * i + 3) * 0.0005
    offset := rng (8 * i + 4) * Real.pi * 2
    rotationAxis := normalize3
      (rng (8 * i + 5) - 0.5, rng (8 * i + 6) - 0.5, rng (8 * i + 7) - 0.5)
    angle := 0 }

/-- Model of `Background3D.createFloatingGeometries`: one `FloatingSolid` per entry
of the geometry list. -/
noncomputable def createFloatingGeometries (rng : ℕ → ℝ) : List FloatingSolid :=
  geometryKinds.enum.map fun p => mkSolid rng p.1 p.2

/-! ## Scene state and the animation loop -/

/-- The mutable state of `Background3D` read and written by `animate`,
`onWindowResize` and the `mousemove` handler. -/
structure SceneState where
  isActive : Bool
  scheduledFrames : ℕ
  clockElapsed : ℝ
  particles : ParticleField
  solids : List FloatingSolid
  cameraX : ℝ
  cameraY : ℝ
  cameraLookAt : ℝ × ℝ × ℝ
  renders : ℕ
  mouseX : ℝ
  mouseY : ℝ
  aspect : ℝ
  surfaceW : ℝ
  surfaceH : ℝ

/-- Per-tick environment: `document.hidden` and the clock delta (seconds)
since the previous tick. -/
structure TickEnv where
  hidden : Bool
  dt : ℝ

/-- The per-solid body of the `animate` loop: rotate by
`config.rotationSpeed` radians about the fixed `userData.rotationAxis`,
then set `position.y = initialY + Math.sin(time * speed + offset) * 1.5`. -/
noncomputable def updateSolid (cfg : SceneConfig) (time : ℝ) (m : FloatingSolid) :
    FloatingSolid :=
  { m with
    angle := m.angle + cfg.rotationSpeed
    position := (m.position.1,
      m.initialY + Real.sin (time * m.speed + m.offset) * 1.5,
      m.position.2.2) }

/-- Model of `Background3D.animate`, one invocation: return at once if disposed;
otherwise reschedule, and if the document is hidden do nothing further;
otherwise advance the clock, push the elapsed milliseconds into the
particle uniform, update every solid, lerp the camera toward the pointer,
re-aim it at the scene origin and render. -/
noncomputable def animate (cfg : SceneConfig) (env : TickEnv) (s : SceneState) :
    SceneState :=
  if !s.isActive then s
  else
    let s1 := { s with scheduledFrames := s.scheduledFrames + 1 }
    if env.hidden then s1
    else
      let elapsed := s1.clockElapsed + env.dt
      let time := elapsed * 1000
      { s1 with
        clockElapsed := elapsed
        particles := { s1.particles with timeUniform := time }
        solids := s1.solids.map (updateSolid cfg time)
        cameraX := cameraLerp cfg.mouseEffect s1.mouseX s1.cameraX
        cameraY := cameraLerp cfg.mouseEffect s1.mouseY s1.cameraY
        cameraLookAt := (0, 0, 0)
        renders := s1.renders + 1 }

/-- Model of `Background3D.onWindowResize`: set `camera.aspect = w / h`, recompute
the projection matrix (a pure function of the camera parameters, so it
carries no extra state here), and resize the renderer to `w × h`. -/
noncomputable def onWindowResize (w h : ℝ) (s : SceneState) : SceneState :=
  { s with aspect := w / h, surfaceW := w, surfaceH := h }

/-- The `mousemove` handler: store the normalized pointer position. -/
noncomputable def onMouseMove (clientX clientY innerW innerH : ℝ) (s : SceneState) :
    SceneState :=
  { s with
    mouseX := clientX / innerW * 2 - 1
    mouseY := -(clientY / innerH) * 2 + 1 }

/-! ## Construction (constructor + init + fallback) -/

/-- The externally observable outcome of constructing a `Background3D`. -/
structure Background3D where
  attached : Bool
  running : Bool
  listening : Bool
  solids : List FloatingSolid
  particles : Option ParticleField
  fallback : Bool

/-- Model of `Background3D.init`: throw if WebGL is unavailable (the only failing
step; every later step of `init` is a total allocation), else build the
scene, attach the renderer surface, build particles then the floating
solids (`Math.random()` keeps advancing, hence the stream offset),
register listeners and start the loop. -/
noncomputable def init (webglAvailable : Bool) (cfg : SceneConfig) (rng : ℕ → ℝ) :
    Except String Background3D :=
  if !webglAvailable then .error "WebGL is not supported"
  else .ok
    { attached := true
      running := true
      listening := true
      solids := createFloatingGeometries fun n => rng (4 * cfg.particleCount + n)
      particles := some (createParticles cfg.particleCount rng)
      fallback := false }

/-- The constructor: `this.init().catch(error => this.fallbackBackground())`
— a failed `init` is caught and replaced by the static gradient fallback,
with nothing attached; no exception escapes. -/
noncomputable def constructBackground3D (webglAvailable : Bool) (cfg : SceneConfig)
    (rng : ℕ → ℝ) : Background3D :=
  match init webglAvailable cfg rng with
  | .ok b => b
  | .error _ =>
    { attached := false
      running := false
      listening := false
      solids := []
      particles := none
      fallback := true }

/-! ## Resource/listener world for disposal

`addEventListeners` registers `this.onWindowResize.bind(this)` for
`resize` and an arrow function for `mousemove`.  Every call to `.bind`
(and every arrow-function literal) yields a fresh function object, which
we model by drawing identifiers from the counter `nextBindId`;
`removeEventListener` only removes a listener whose function object is
the very one that was registered. -/

/-- Dispose counters and scene membership for one mesh (or the particle
system): `geometry.dispose()`, `material.dispose()`, `scene.remove`. -/
structure MeshRes where
  geomDisposeCount : ℕ
  matDisposeCount : ℕ
  inScene : Bool
deriving DecidableEq

/-- Owned resources and registered listeners of one `Background3D`. -/
structure World where
  isActive : Bool
  pendingFrame : Bool
  meshes : List MeshRes
  particlesRes : Option MeshRes
  rendererDisposeCount : ℕ
  surfaceAttached : Bool
  resizeListeners : List ℕ
  mousemoveListeners : List ℕ
  nextBindId : ℕ
deriving DecidableEq

/-- Model of `Background3D.addEventListeners`: register a fresh bound function for
`resize` and a fresh arrow function for `mousemove`. -/
def addEventListeners (w : World) : World :=
  { w with
    resizeListeners := w.resizeListeners ++ [w.nextBindId]
    mousemoveListeners := w.mousemoveListeners ++ [w.nextBindId + 1]
    nextBindId := w.nextBindId + 2 }

/-- The world after a successful `init` with `solidCount` floating solids:
loop running with a scheduled frame, all resources live and in the scene,
surface attached, listeners registered. -/
def initWorld (solidCount : ℕ) : World :=
  addEventListeners
    { isActive := true
      pendingFrame := true
      meshes := List.replicate solidCount ⟨0, 0, true⟩
      particlesRes := some ⟨0, 0, true⟩
      rendererDisposeCount := 0
      surfaceAttached := true
      resizeListeners := []
      mousemoveListeners := []
      nextBindId := 0 }

/-- Model of `mesh.geometry.dispose(); mesh.material.dispose(); scene.remove(mesh)`. -/
def disposeMesh (m : MeshRes) : MeshRes :=
  { geomDisposeCount := m.geomDisposeCount + 1
    matDisposeCount := m.matDisposeCount + 1
    inScene := false }

/-- Model of `Background3D.dispose`: clear the active flag, cancel the pending
frame, dispose every mesh and the particle system, dispose the renderer
and detach its surface, then call
`removeEventListener('resize', this.onWindowResize.bind(this))` — note
that this `.bind(this)` creates a fresh function object (`w.nextBindId`),
so the filter compares against an identifier that was never registered. -/
def dispose (w : World) : World :=
  let w1 := { w with isActive := false, pendingFrame := false }
  let w2 := { w1 with meshes := w1.meshes.map disposeMesh }
  let w3 := { w2 with particlesRes := w2.particlesRes.map disposeMesh }
  let w4 := { w3 with
    rendererDisposeCount := w3.rendererDisposeCount + 1
    surfaceAttached := false }
  { w4 with
    resizeListeners := w4.resizeListeners.filter fun fid => fid ≠ w4.nextBindId
    nextBindId := w4.nextBindId + 1 }

/-! ## ContactForm submission -/

/-- The state of `ContactForm` touched by `handleSubmit`/`setLoading`:
the re-entrancy flag, the submit button, the three field values and the
currently shown notification (text, isError). -/
structure ContactFormState where
  isSubmitting : Bool
  submitDisabled : Bool
  buttonTextShown : Bool
  loaderShown : Bool
  nameValue : List Char
  emailValue : List Char
  messageValue : List Char
  toast : Option (String × Bool)
deriving DecidableEq

/-- Model of `ContactForm.setLoading`. -/
def setLoading (loading : Bool) (s : ContactFormState) : ContactFormState :=
  { s with
    isSubmitting := loading
    submitDisabled := loading
    buttonTextShown := !loading
    loaderShown := loading }

/-- Model of `ContactForm.handleSubmit`, one complete run of the async handler:
bail out if a submission is in flight; otherwise enter the loading state,
validate every field (`Array.prototype.every`, equivalent to the
conjunction), and either reset the form and show the success toast or —
via the thrown validation error — show the error toast; the `finally`
block leaves the loading state on both paths. -/
def handleSubmit (s : ContactFormState) : ContactFormState :=
  if s.isSubmitting then s
  else
    let s1 := setLoading true s
    let ok := (validateField .name s1.nameValue).isValid
      && ((validateField .email s1.emailValue).isValid
      && (validateField .message s1.messageValue).isValid)
    if ok then
      setLoading false
        { s1 with
          toast := some ("Thank you for contacting me", false)
          nameValue := []
          emailValue := []
          messageValue := [] }
    else
      setLoading false
        { s1 with toast := some ("Please fill all required fields correctly", true) }

/-! ## Concrete fixtures for instantiations -/

/-- An empty particle field. -/
def pf0 : ParticleField := { positions := [], scales := [], timeUniform := 0 }

/-- A concrete live scene state. -/
def sceneLive : SceneState :=
  { isActive := true
    scheduledFrames := 0
    clockElapsed := 0
    particles := pf0
    solids := []
    cameraX := 0
    cameraY := 0
    cameraLookAt := (0, 0, 0)
    renders := 0
    mouseX := 0
    mouseY := 0
    aspect := 1
    surfaceW := 1
    surfaceH := 1 }

/-- The live scene state after `dispose` cleared the active flag. -/
def sceneDisposed : SceneState := { sceneLive with isActive := false }

def envVisible : TickEnv := { hidden := false, dt := 1 }

def envHidden : TickEnv := { hidden := true, dt := 1 }

/-- A concrete floating solid. -/
def solid0 : FloatingSolid :=
  { kind := .torus
    position := (0, 0, 0)
    initialY := 0
    speed := 1
    offset := 0
    rotationAxis := (1, 0, 0)
    angle := 0 }

/-! ## The e-mail regex agrees with the local@domain.tld shape -/

/-- Computation of `takeWhile`/`dropWhile` on a list split at its first failing element. -/
lemma takeWhile_dropWhile_split (p : Char → Bool) (A : List Char) (x : Char)
    (B : List Char) (hA : ∀ c ∈ A, p c = true) (hx : p x = false) :
    (A ++ x :: B).takeWhile p = A ∧ (A ++ x :: B).dropWhile p = x :: B := by
  induction A with
  | nil => simp [List.takeWhile_cons, List.dropWhile_cons, hx]
  | cons a A ih =>
    have hpa : p a = true := hA a (by simp)
    have ih2 := ih fun c hc => hA c (by simp [hc])
    simp [List.takeWhile_cons, List.dropWhile_cons, hpa, ih2.1, ih2.2]

/-- The head of a nonempty `dropWhile` result fails the predicate. -/
lemma dropWhile_head_not (p : Char → Bool) :
    ∀ (l : List Char) (x : Char) (xs : List Char),
      l.dropWhile p = x :: xs → p x = false := by
  intro l
  induction l with
  | nil => intro x xs h; simp at h
  | cons a l ih =>
    intro x xs h
    rw [List.dropWhile_cons] at h
    cases hpa : p a with
    | true =>
      rw [hpa] at h
      simp at h
      exact ih x xs h
    | false =>
      rw [hpa] at h
      simp at h
      obtain ⟨rfl, rfl⟩ := h
      exact hpa

lemma contains_dot_iff (l : List Char) : l.contains '.' = true ↔ '.' ∈ l := by
  simp [List.contains]

/-- The executable regex test accepts exactly the strings of the
`local@domain.tld` shape. -/
lemma emailOk_eq_true_iff (l : List Char) : emailOk l = true ↔ emailShape l := by
  constructor
  · intro h
    simp only [emailOk] at h
    cases e : l.dropWhile (fun c => !(c == '@')) with
    | nil => rw [e] at h; simp at h
    | cons x b =>
      rw [e] at h
      simp only [Bool.and_eq_true, List.all_eq_true, Bool.not_eq_true'] at h
      obtain ⟨hane, haall, hball, hdot⟩ := h
      have hane' : l.takeWhile (fun c => !(c == '@')) ≠ [] := by
        intro h0
        rw [h0] at hane
        simp at hane
      have hx' : x = '@' := by
        have hhd := dropWhile_head_not (fun c => !(c == '@')) l x b e
        simpa using hhd
      subst hx'
      have hsplit : l = l.takeWhile (fun c => !(c == '@')) ++ '@' :: b := by
        conv_lhs => rw [← List.takeWhile_append_dropWhile (fun c => !(c == '@')) l]
        rw [e]
      cases b with
      | nil => simp at hdot
      | cons y b' =>
        rw [contains_dot_iff] at hdot
        simp only [List.drop_succ_cons, List.drop_zero] at hdot
        have hb' : b' ≠ [] := by
          rintro rfl
          simp at hdot
        obtain ⟨s, t, hst⟩ := List.append_of_mem hdot
        obtain ⟨b'', z, hb2⟩ := (List.eq_nil_or_concat b').resolve_left hb'
        rw [List.concat_eq_append] at hb2
        have hbb : b'' = s ++ '.' :: t := by
          rw [hb2, List.dropLast_concat] at hst
          exact hst
        have hbdec : y :: b' = (y :: s) ++ '.' :: (t ++ [z]) := by
          rw [hb2, hbb]
          simp
        rw [hbdec] at hsplit hball
        refine ⟨l.takeWhile (fun c => !(c == '@')), y :: s, t ++ [z], hsplit,
          hane', by simp, by simp, haall, ?_, ?_⟩
        · intro c hc
          exact hball c (List.mem_append_left _ hc)
        · intro c hc
          exact hball c (List.mem_append_right _ (List.mem_cons_of_mem _ hc))
  · rintro ⟨A, M, R, rfl, hA, hM, hR, hAc, hMc, hRc⟩
    have hpA : ∀ c ∈ A, (fun c => !(c == '@')) c = true := by
      intro c hc
      have hec := hAc c hc
      simp only [emailChar, Bool.and_eq_true] at hec
      exact hec.2
    have hpx : (fun c => !(c == '@')) '@' = false := by simp
    obtain ⟨htw, hdw⟩ := takeWhile_dropWhile_split (fun c => !(c == '@')) A '@'
      (M ++ '.' :: R) hpA hpx
    simp only [emailOk, hdw, htw]
    have hAne : A.isEmpty = false := by
      cases A with
      | nil => exact absurd rfl hA
      | cons a A => rfl
    simp only [hAne, Bool.not_false, Bool.true_and, Bool.and_eq_true,
      List.all_eq_true]
    refine ⟨hAc, ?_, ?_⟩
    · intro c hc
      rcases List.mem_append.mp hc with hc | hc
      · exact hMc c hc
      · rcases List.mem_cons.mp hc with rfl | hc
        · decide
        · exact hRc c hc
    · cases M with
      | nil => exact absurd rfl hM
      | cons m M' =>
        cases R with
        | nil => exact absurd rfl hR
        | cons r R' =>
          rw [contains_dot_iff]
          simp only [List.cons_append, List.drop_succ_cons, List.drop_zero]
          rw [List.dropLast_append_cons]
          simp [List.dropLast]

/-! ## Claims -/

/-- Claim C7: the resize handler is idempotent — invoking it a second time
with the same viewport dimensions leaves the camera aspect ratio and the
render-surface size (indeed the whole state) unchanged from their values
after the first invocation. -/
theorem onWindowResize_idempotent (w h : ℝ) (s : SceneState) :
    onWindowResize w h (onWindowResize w h s) = onWindowResize w h s ∧
    (onWindowResize w h (onWindowResize w h s)).aspect
      = (onWindowResize w h s).aspect ∧
    (onWindowResize w h (onWindowResize w h s)).surfaceW
      = (onWindowResize w h s).surfaceW ∧
    (onWindowResize w h (onWindowResize w h s)).surfaceH
      = (onWindowResize w h s).surfaceH :=
  ⟨rfl, rfl, rfl, rfl⟩

/-- Claim C4: a visible tick maps every solid through `updateSolid` at the
new elapsed milliseconds, `updateSolid` sets the vertical position to
`initialY + sin(time * speed + offset) * 1.5`, and that position always
lies in the closed interval `[initialY - 1.5, initialY + 1.5]`. -/
theorem solid_oscillation_bound (cfg : SceneConfig) (env : TickEnv)
    (s : SceneState) (time : ℝ) (m : FloatingSolid) :
    (s.isActive = true → env.hidden = false →
      (animate cfg env s).solids =
        s.solids.map (updateSolid cfg ((s.clockElapsed + env.dt) * 1000))) ∧
    (updateSolid cfg time m).position.2.1
      = m.initialY + Real.sin (time * m.speed + m.offset) * 1.5 ∧
    m.initialY - 1.5 ≤ (updateSolid cfg time m).position.2.1 ∧
    (updateSolid cfg time m).position.2.1 ≤ m.initialY + 1.5 := by
  refine ⟨fun ha hh => by simp [animate, ha, hh], rfl, ?_, ?_⟩
  · have h1 := Real.neg_one_le_sin (time * m.speed + m.offset)
    simp only [updateSolid]
    linarith
  · have h1 := Real.sin_le_one (time * m.speed + m.offset)
    simp only [updateSolid]
    linarith

/-- Witness for C4 at a concrete scene, tick environment and solid. -/
theorem solid_oscillation_bound_witness :
    ((animate defaultConfig envVisible sceneLive).solids =
      sceneLive.solids.map
        (updateSolid defaultConfig ((sceneLive.clockElapsed + envVisible.dt) * 1000))) ∧
    (updateSolid defaultConfig 0 solid0).position.2.1
      = solid0.initialY + Real.sin (0 * solid0.speed + solid0.offset) * 1.5 ∧
    solid0.initialY - 1.5 ≤ (updateSolid defaultConfig 0 solid0).position.2.1 ∧
    (updateSolid defaultConfig 0 solid0).position.2.1 ≤ solid0.initialY + 1.5 :=
  ⟨(solid_oscillation_bound defaultConfig envVisible sceneLive 0 solid0).1 rfl rfl,
    (solid_oscillation_bound defaultConfig envVisible sceneLive 0 solid0).2⟩

/-- Claim C6: a disposed controller's tick returns its state unchanged (no
reschedule, no work) and stays unchanged over any number of ticks; a live
tick with the document hidden only reschedules — clock, particles, solids,
camera and render count are untouched. -/
theorem animate_disposed_and_hidden (cfg : SceneConfig) (env : TickEnv)
    (s : SceneState) :
    (s.isActive = false → animate cfg env s = s) ∧
    (s.isActive = false → ∀ n : ℕ, (animate cfg env)^[n] s = s) ∧
    (s.isActive = true → env.hidden = true →
      animate cfg env s = { s with scheduledFrames := s.scheduledFrames + 1 }) := by
  refine ⟨fun h => by simp [animate, h], fun h n => ?_, fun h1 h2 => by
    simp [animate, h1, h2]⟩
  induction n with
  | zero => rfl
  | succ n ih =>
    rw [Function.iterate_succ_apply, show animate cfg env s = s from by
      simp [animate, h], ih]

/-- Witness for C6: a concrete disposed state is a fixed point of the loop
(also after 5 iterations), and a hidden tick only increments the scheduled
frame counter. -/
theorem animate_disposed_and_hidden_witness :
    animate defaultConfig envVisible sceneDisposed = sceneDisposed ∧
    (animate defaultConfig envVisible)^[5] sceneDisposed = sceneDisposed ∧
    animate defaultConfig envHidden sceneLive
      = { sceneLive with scheduledFrames := sceneLive.scheduledFrames + 1 } :=
  ⟨(animate_disposed_and_hidden defaultConfig envVisible sceneDisposed).1 rfl,
    (animate_disposed_and_hidden defaultConfig envVisible sceneDisposed).2.1 rfl 5,
    (animate_disposed_and_hidden defaultConfig envHidden sceneLive).2.2 rfl rfl⟩

/-- Claim C10: `handleSubmit` is re-entrancy guarded — with a submission in
flight every further submit event leaves the state untouched, and a run
that does start restores the flag and re-enables the button on both the
success and the failure path. -/
theorem handleSubmit_reentrancy (s : ContactFormState) :
    (s.isSubmitting = true → handleSubmit s = s) ∧
    (s.isSubmitting = false →
      (handleSubmit s).isSubmitting = false ∧
      (handleSubmit s).submitDisabled = false) := by
  constructor
  · intro h
    simp [handleSubmit, h]
  · intro h
    simp only [handleSubmit, h, Bool.false_eq_true, if_false]
    split
    · exact ⟨rfl, rfl⟩
    · exact ⟨rfl, rfl⟩

/-- A form state with a submission in flight. -/
def formInFlight : ContactFormState :=
  { isSubmitting := true
    submitDisabled := true
    buttonTextShown := false
    loaderShown := true
    nameValue := "Jo".toList
    emailValue := "a@b.c".toList
    messageValue := "0123456789".toList
    toast := none }

/-- An idle form state whose fields all validate. -/
def formIdleValid : ContactFormState :=
  { formInFlight with isSubmitting := false, submitDisabled := false }

/-- An idle form state whose name field fails validation. -/
def formIdleInvalid : ContactFormState :=
  { formIdleValid with nameValue := "x".toList }

/-- Witness for C10 on concrete states: a no-op while in flight, and the
flag and button restored after a successful run and after a failing run. -/
theorem handleSubmit_reentrancy_witness :
    handleSubmit formInFlight = formInFlight ∧
    ((handleSubmit formIdleValid).isSubmitting = false ∧
      (handleSubmit formIdleValid).submitDisabled = false) ∧
    ((handleSubmit formIdleInvalid).isSubmitting = false ∧
      (handleSubmit formIdleInvalid).submitDisabled = false) :=
  ⟨(handleSubmit_reentrancy formInFlight).1 rfl,
    (handleSubmit_reentrancy formIdleValid).2 rfl,
    (handleSubmit_reentrancy formIdleInvalid).2 rfl⟩

/-- Claim C2, settled against the code: disposing the controller built by a
successful construction (the scenario with the four geometry kinds) does
clear the active flag, cancel the pending tick, release every geometry and
material exactly once, remove everything from the scene and detach the
render surface — but the `resize` listener registered by
`addEventListeners` is still present afterwards, because `dispose` passes
a fresh `this.onWindowResize.bind(this)` (identifier 2 here) to
`removeEventListener` while the registered listener is the earlier bound
function (identifier 0). -/
theorem dispose_resize_listener_survives :
    (dispose (initWorld 4)).isActive = false ∧
    (dispose (initWorld 4)).pendingFrame = false ∧
    (dispose (initWorld 4)).meshes = List.replicate 4 ⟨1, 1, false⟩ ∧
    (dispose (initWorld 4)).particlesRes = some ⟨1, 1, false⟩ ∧
    (dispose (initWorld 4)).rendererDisposeCount = 1 ∧
    (dispose (initWorld 4)).surfaceAttached = false ∧
    (dispose (initWorld 4)).resizeListeners = [0] ∧
    (initWorld 4).resizeListeners = [0] := by
  decide

/-- The success outcome described by claim C1: a running controller with
one solid per geometry kind and a particle field of the configured
length, its surface attached. -/
def RunningOutcome (b : Background3D) (cfg : SceneConfig) : Prop :=
  b.attached = true ∧ b.running = true ∧
  b.solids.length = geometryKinds.length ∧
  ∃ pf, b.particles = some pf ∧
    pf.positions.length = cfg.particleCount ∧
    pf.scales.length = cfg.particleCount

/-- The fallback outcome described by claim C1: nothing attached to the
host at all. -/
def DetachedOutcome (b : Background3D) : Prop :=
  b.attached = false ∧ b.running = false ∧ b.solids = [] ∧
  b.particles = none ∧ b.fallback = true

/-- Claim C1: construction is a total function (the only construction-time
failure, capability absence, is caught and replaced by the fallback, so no
exception reaches the caller) whose result is either a running controller
with exactly `geometryKinds.length` solids and `particleCount` particles,
or a state with no render surface attached at all — never anything
in between. -/
theorem construct_all_or_nothing (webgl : Bool) (cfg : SceneConfig)
    (rng : ℕ → ℝ) (_hvalid : 0 < cfg.particleCount) :
    RunningOutcome (constructBackground3D webgl cfg rng) cfg ∨
    DetachedOutcome (constructBackground3D webgl cfg rng) := by
  cases webgl with
  | false =>
    right
    exact ⟨rfl, rfl, rfl, rfl, rfl⟩
  | true =>
    left
    refine ⟨rfl, rfl, ?_, createParticles cfg.particleCount rng, rfl, ?_, ?_⟩
    · show (createFloatingGeometries _).length = _
      simp [createFloatingGeometries]
    · simp [createParticles]
    · simp [createParticles]

/-- Witness for C1 at the source's literal config, with WebGL available
and with it absent. -/
theorem construct_all_or_nothing_witness :
    (RunningOutcome (constructBackground3D true defaultConfig fun _ => 0)
        defaultConfig ∨
      DetachedOutcome (constructBackground3D true defaultConfig fun _ => 0)) ∧
    (RunningOutcome (constructBackground3D false defaultConfig fun _ => 0)
        defaultConfig ∨
      DetachedOutcome (constructBackground3D false defaultConfig fun _ => 0)) :=
  ⟨construct_all_or_nothing true defaultConfig (fun _ => 0) (by decide),
    construct_all_or_nothing false defaultConfig (fun _ => 0) (by decide)⟩

/-- Claim C8: a freshly built particle field has exactly `particleCount`
positions, each coordinate in the half-extent-25 cube `[-25, 25)`, and
`particleCount` scale factors in `[0, 1)`; one solid is built per geometry
kind; and no tick, resize or pointer event adds or removes a particle or
a solid. -/
theorem particle_field_invariants (cnt : ℕ) (rng : ℕ → ℝ)
    (hrng : ∀ n, 0 ≤ rng n ∧ rng n < 1) (cfg : SceneConfig) (env : TickEnv)
    (s : SceneState) (w h cx cy iw ih : ℝ) :
    (createParticles cnt rng).positions.length = cnt ∧
    (createParticles cnt rng).scales.length = cnt ∧
    (∀ p ∈ (createParticles cnt rng).positions,
      (-25 ≤ p.1 ∧ p.1 < 25) ∧ (-25 ≤ p.2.1 ∧ p.2.1 < 25) ∧
      (-25 ≤ p.2.2 ∧ p.2.2 < 25)) ∧
    (∀ sc ∈ (createParticles cnt rng).scales, 0 ≤ sc ∧ sc < 1) ∧
    (createFloatingGeometries rng).length = geometryKinds.length ∧
    (animate cfg env s).particles.positions = s.particles.positions ∧
    (animate cfg env s).particles.scales = s.particles.scales ∧
    (animate cfg env s).solids.length = s.solids.length ∧
    (onWindowResize w h s).particles = s.particles ∧
    (onWindowResize w h s).solids = s.solids ∧
    (onMouseMove cx cy iw ih s).particles = s.particles ∧
    (onMouseMove cx cy iw ih s).solids = s.solids := by
  refine ⟨by simp [createParticles], by simp [createParticles], ?_, ?_, ?_,
    ?_, ?_, ?_, rfl, rfl, rfl, rfl⟩
  · intro p hp
    simp only [createParticles, List.mem_map, List.mem_range] at hp
    obtain ⟨i, -, rfl⟩ := hp
    refine ⟨⟨?_, ?_⟩, ⟨?_, ?_⟩, ⟨?_, ?_⟩⟩ <;>
      [have hr := hrng (4 * i); have hr := hrng (4 * i);
        have hr := hrng (4 * i + 1); have hr := hrng (4 * i + 1);
        have hr := hrng (4 * i + 2); have hr := hrng (4 * i + 2)] <;>
      [skip; skip; skip; skip; skip; skip] <;> nlinarith [hr.1, hr.2]
  · intro sc hsc
    simp only [createParticles, List.mem_map, List.mem_range] at hsc
    obtain ⟨i, -, rfl⟩ := hsc
    exact hrng (4 * i + 3)
  · simp [createFloatingGeometries]
  · unfold animate
    split
    · rfl
    · split
      · rfl
      · rfl
  · unfold animate
    split
    · rfl
    · split
      · rfl
      · rfl
  · unfold animate
    split
    · rfl
    · split
      · rfl
      · simp

/-- Witness for C8 with the all-zeros random stream. -/
theorem particle_field_invariants_witness :
    (createParticles 10 fun _ => 0).positions.length = 10 ∧
    (∀ p ∈ (createParticles 10 fun _ => (0 : ℝ)).positions,
      (-25 ≤ p.1 ∧ p.1 < 25) ∧ (-25 ≤ p.2.1 ∧ p.2.1 < 25) ∧
      (-25 ≤ p.2.2 ∧ p.2.2 < 25)) ∧
    (createFloatingGeometries fun _ => (0 : ℝ)).length = geometryKinds.length ∧
    (animate defaultConfig envVisible sceneLive).particles.positions
      = sceneLive.particles.positions :=
  ⟨(particle_field_invariants 10 (fun _ => 0) (fun _ => by norm_num)
      defaultConfig envVisible sceneLive 1 1 1 1 1 1).1,
    (particle_field_invariants 10 (fun _ => 0) (fun _ => by norm_num)
      defaultConfig envVisible sceneLive 1 1 1 1 1 1).2.2.1,
    (particle_field_invariants 10 (fun _ => 0) (fun _ => by norm_num)
      defaultConfig envVisible sceneLive 1 1 1 1 1 1).2.2.2.2.1,
    (particle_field_invariants 10 (fun _ => 0) (fun _ => by norm_num)
      defaultConfig envVisible sceneLive 1 1 1 1 1 1).2.2.2.2.2.1⟩

/-- Closed form of the camera lerp iteration: exponential smoothing toward
`T * 2` with per-tick factor `a`. -/
lemma camSeq_closed (a T x0 : ℝ) (n : ℕ) :
    camSeq a T x0 n = T * 2 + (1 - a) ^ n * (x0 - T * 2) := by
  induction n with
  | zero => simp [camSeq]
  | succ n ih =>
    have h : camSeq a T x0 (n + 1) = cameraLerp a T (camSeq a T x0 n) := by
      simp [camSeq, Function.iterate_succ_apply']
    rw [h, ih]
    simp only [cameraLerp, pow_succ]
    ring

/-- Claim C3: a visible tick moves each camera coordinate by the lerp
`x + (pointer * 2 - x) * mouseEffect` and re-aims the camera at the scene
origin; for a constant pointer target and `mouseEffect ∈ (0, 1)` the
resulting coordinate sequence is monotone (nondecreasing from below the
target, nonincreasing from above) and converges to `pointer * 2`. -/
theorem camera_steering_converges (cfg : SceneConfig) (env : TickEnv)
    (s : SceneState) (a T x0 : ℝ) (ha0 : 0 < a) (ha1 : a < 1) :
    (s.isActive = true → env.hidden = false →
      (animate cfg env s).cameraX
        = cameraLerp cfg.mouseEffect s.mouseX s.cameraX ∧
      (animate cfg env s).cameraY
        = cameraLerp cfg.mouseEffect s.mouseY s.cameraY ∧
      (animate cfg env s).cameraLookAt = (0, 0, 0)) ∧
    (x0 ≤ T * 2 → Monotone (camSeq a T x0)) ∧
    (T * 2 ≤ x0 → Antitone (camSeq a T x0)) ∧
    Filter.Tendsto (camSeq a T x0) Filter.atTop (nhds (T * 2)) := by
  have h1a : (0 : ℝ) ≤ 1 - a := by linarith
  refine ⟨fun ha hh => by simp [animate, ha, hh], ?_, ?_, ?_⟩
  · intro hx
    apply monotone_nat_of_le_succ
    intro n
    rw [camSeq_closed, camSeq_closed, pow_succ]
    have hp : (0 : ℝ) ≤ (1 - a) ^ n := pow_nonneg h1a n
    nlinarith [mul_nonneg (mul_nonneg hp ha0.le) (sub_nonneg.mpr hx)]
  · intro hx
    apply antitone_nat_of_succ_le
    intro n
    rw [camSeq_closed, camSeq_closed, pow_succ]
    have hp : (0 : ℝ) ≤ (1 - a) ^ n := pow_nonneg h1a n
    nlinarith [mul_nonneg (mul_nonneg hp ha0.le) (sub_nonneg.mpr hx)]
  · have hpow : Filter.Tendsto (fun n : ℕ => (1 - a) ^ n) Filter.atTop (nhds 0) :=
      tendsto_pow_atTop_nhds_zero_of_lt_one h1a (by linarith)
    have h2 := (hpow.mul_const (x0 - T * 2)).const_add (T * 2)
    rw [zero_mul, add_zero] at h2
    have hfun : camSeq a T x0 = fun n => T * 2 + (1 - a) ^ n * (x0 - T * 2) :=
      funext (camSeq_closed a T x0)
    rw [hfun]
    exact h2

/-- Witness for C3: the tick equations at a concrete live scene, and
monotone convergence for `mouseEffect = 1/2`, pointer `1`, start `0`. -/
theorem camera_steering_converges_witness :
    ((animate defaultConfig envVisible sceneLive).cameraX
        = cameraLerp defaultConfig.mouseEffect sceneLive.mouseX sceneLive.cameraX ∧
      (animate defaultConfig envVisible sceneLive).cameraY
        = cameraLerp defaultConfig.mouseEffect sceneLive.mouseY sceneLive.cameraY ∧
      (animate defaultConfig envVisible sceneLive).cameraLookAt = (0, 0, 0)) ∧
    Monotone (camSeq (1 / 2) 1 0) ∧
    Filter.Tendsto (camSeq (1 / 2) 1 0) Filter.atTop (nhds (1 * 2)) :=
  ⟨(camera_steering_converges defaultConfig envVisible sceneLive (1 / 2) 1 0
      (by norm_num) (by norm_num)).1 rfl rfl,
    (camera_steering_converges defaultConfig envVisible sceneLive (1 / 2) 1 0
      (by norm_num) (by norm_num)).2.1 (by norm_num),
    (camera_steering_converges defaultConfig envVisible sceneLive (1 / 2) 1 0
      (by norm_num) (by norm_num)).2.2.2⟩

/-- A nonzero vector normalized by `THREE.Vector3.normalize` has length 1. -/
lemma len3_normalize3 (v : ℝ × ℝ × ℝ) (hv : len3 v ≠ 0) :
    len3 (normalize3 v) = 1 := by
  have hs : (0 : ℝ) ≤ v.1 ^ 2 + v.2.1 ^ 2 + v.2.2 ^ 2 := by positivity
  have hsq : Real.sqrt (v.1 ^ 2 + v.2.1 ^ 2 + v.2.2 ^ 2) ^ 2
      = v.1 ^ 2 + v.2.1 ^ 2 + v.2.2 ^ 2 := Real.sq_sqrt hs
  have hne : v.1 ^ 2 + v.2.1 ^ 2 + v.2.2 ^ 2 ≠ 0 := by
    intro h0
    exact hv (by simp [len3, h0])
  rw [normalize3, if_neg hv]
  simp only [len3]
  rw [div_pow, div_pow, div_pow, div_add_div_same, div_add_div_same, hsq,
    div_self hne, Real.sqrt_one]

/-- Claim C9 fails as stated: with every `Math.random()` call returning
exactly `0.5` — a possible outcome, since each sampled component lies in
`[-0.5, 0.5)` and `0` is attainable — the sampled axis is the zero vector,
`THREE.Vector3.normalize` (which divides by `length() || 1`) leaves it
zero, and the resulting rotation axis has length 0, not 1. -/
theorem rotation_axis_counterexample :
    (∀ n : ℕ, 0 ≤ (fun _ : ℕ => (1 / 2 : ℝ)) n ∧ (fun _ : ℕ => (1 / 2 : ℝ)) n < 1) ∧
    (mkSolid (fun _ => 1 / 2) 0 GeometryKind.torus).rotationAxis
      = ((0 : ℝ), (0 : ℝ), (0 : ℝ)) ∧
    len3 (mkSolid (fun _ => 1 / 2) 0 GeometryKind.torus).rotationAxis ≠ 1 := by
  have h0 : len3 ((0 : ℝ), (0 : ℝ), (0 : ℝ)) = 0 := by
    simp [len3]
  have hv : ((1 : ℝ) / 2 - 0.5, (1 : ℝ) / 2 - 0.5, (1 : ℝ) / 2 - 0.5)
      = ((0 : ℝ), (0 : ℝ), (0 : ℝ)) := by norm_num
  have hax : (mkSolid (fun _ => 1 / 2) 0 GeometryKind.torus).rotationAxis
      = ((0 : ℝ), (0 : ℝ), (0 : ℝ)) := by
    show normalize3 ((1 : ℝ) / 2 - 0.5, (1 : ℝ) / 2 - 0.5, (1 : ℝ) / 2 - 0.5)
      = ((0 : ℝ), (0 : ℝ), (0 : ℝ))
    rw [hv, normalize3, if_pos h0]
  refine ⟨fun n => by norm_num, hax, ?_⟩
  rw [hax, h0]
  norm_num

/-- Claim C9 amended: whenever the three sampled components are not all
zero the assigned rotation axis is unit-length; and each tick rotates the
solid about its fixed axis by exactly `config.rotationSpeed` radians (the
axis is untouched, the accumulated angle grows by `rotationSpeed`). -/
theorem rotation_axis_unit_and_tick (rng : ℕ → ℝ) (i : ℕ) (k : GeometryKind)
    (cfg : SceneConfig) (time : ℝ) (m : FloatingSolid)
    (hv : len3 (rng (8 * i + 5) - 0.5, rng (8 * i + 6) - 0.5,
      rng (8 * i + 7) - 0.5) ≠ 0) :
    len3 (mkSolid rng i k).rotationAxis = 1 ∧
    (updateSolid cfg time m).rotationAxis = m.rotationAxis ∧
    (updateSolid cfg time m).angle = m.angle + cfg.rotationSpeed :=
  ⟨len3_normalize3 _ hv, rfl, rfl⟩

/-- Witness for the amended C9 with the all-zeros random stream (axis
sampled as `(-0.5, -0.5, -0.5)`, which has positive length). -/
theorem rotation_axis_unit_and_tick_witness :
    len3 (mkSolid (fun _ => 0) 0 GeometryKind.torus).rotationAxis = 1 ∧
    (updateSolid defaultConfig 0 solid0).rotationAxis = solid0.rotationAxis ∧
    (updateSolid defaultConfig 0 solid0).angle
      = solid0.angle + defaultConfig.rotationSpeed :=
  rotation_axis_unit_and_tick (fun _ => 0) 0 GeometryKind.torus defaultConfig 0
    solid0 (by norm_num [len3, Real.sqrt_ne_zero'])

/-- Claim C5: validation is a pure function of the trimmed value — the
`name` field is valid iff its trimmed length is at least 2, the `email`
field iff its trimmed value has the `local@domain.tld` shape, the
`message` field iff its trimmed length is at least 10; an invalid field
yields the fixed, nonempty error message of its kind, and the three
messages are pairwise distinct. -/
theorem validateField_spec (raw : List Char) :
    ((validateField .name raw).isValid = true ↔ 2 ≤ (jsTrim raw).length) ∧
    ((validateField .email raw).isValid = true ↔ emailShape (jsTrim raw)) ∧
    ((validateField .message raw).isValid = true ↔ 10 ≤ (jsTrim raw).length) ∧
    ((validateField .name raw).isValid = false →
      (validateField .name raw).errorMessage = nameError) ∧
    ((validateField .email raw).isValid = false →
      (validateField .email raw).errorMessage = emailError) ∧
    ((validateField .message raw).isValid = false →
      (validateField .message raw).errorMessage = messageError) ∧
    (nameError ≠ "" ∧ emailError ≠ "" ∧ messageError ≠ "") ∧
    (nameError ≠ emailError ∧ nameError ≠ messageError ∧
      emailError ≠ messageError) ∧
    (∀ (k : FieldKind) (raw' : List Char), jsTrim raw = jsTrim raw' →
      validateField k raw = validateField k raw') := by
  refine ⟨?_, ?_, ?_, ?_, ?_, ?_, by refine ⟨?_, ?_, ?_⟩ <;> decide,
    by refine ⟨?_, ?_, ?_⟩ <;> decide, ?_⟩
  · by_cases h : (jsTrim raw).length < 2
    · simp only [validateField, if_pos h]
      simp only [Bool.false_eq_true, false_iff]
      omega
    · simp only [validateField, if_neg h]
      simp only [true_iff]
      omega
  · by_cases h : emailOk (jsTrim raw) = true
    · simp only [validateField, if_pos h]
      simp only [true_iff]
      exact (emailOk_eq_true_iff _).mp h
    · rw [Bool.not_eq_true] at h
      simp only [validateField, h, Bool.false_eq_true, if_false]
      simp only [Bool.false_eq_true, false_iff]
      intro hs
      rw [(emailOk_eq_true_iff _).mpr hs] at h
      exact Bool.true_eq_false ▸ h
  · by_cases h : (jsTrim raw).length < 10
    · simp only [validateField, if_pos h]
      simp only [Bool.false_eq_true, false_iff]
      omega
    · simp only [validateField, if_neg h]
      simp only [true_iff]
      omega
  · by_cases h : (jsTrim raw).length < 2
    · intro _
      simp only [validateField, if_pos h]
    · intro hinv
      simp only [validateField, if_neg h] at hinv
      exact absurd hinv (by simp)
  · by_cases h : emailOk (jsTrim raw) = true
    · intro hinv
      simp only [validateField, if_pos h] at hinv
      exact absurd hinv (by simp)
    · rw [Bool.not_eq_true] at h
      intro _
      simp only [validateField, h, Bool.false_eq_true, if_false]
  · by_cases h : (jsTrim raw).length < 10
    · intro _
      simp only [validateField, if_pos h]
    · intro hinv
      simp only [validateField, if_neg h] at hinv
      exact absurd hinv (by simp)
  · intro k raw' hte
    cases k <;> simp only [validateField, hte]

/-- Witness for C5 on concrete field values: a shape certificate obtained
from an accepted address, and the three specific error messages produced
on concrete invalid values. -/
theorem validateField_spec_witness :
    emailShape (jsTrim "a@b.c".toList) ∧
    (validateField .name "x".toList).errorMessage = nameError ∧
    (validateField .email "nope".toList).errorMessage = emailError ∧
    (validateField .message "short".toList).errorMessage = messageError :=
  ⟨(validateField_spec "a@b.c".toList).2.1.mp (by decide),
    (validateField_spec "x".toList).2.2.2.1 (by decide),
    (validateField_spec "nope".toList).2.2.2.2.1 (by decide),
    (validateField_spec "short".toList).2.2.2.2.2.1 (by decide)⟩

end Portfolio
